import Mathlib

/-!
# XorgBackend: surface lifecycle, abort signal and event translation

A shallow embedding of `src/backend/XorgBackend.cc`.

The C++ object and the libraries it talks to are two halves of one state:

* `XorgBackend` holds the members of the object (`width`, `height`, `surface`,
  `abortCallback`);
* `World` holds what Xlib and cairo know: the ordered log of the library calls
  the code has issued, the cairo surface records, and the counters from which
  fresh connection handles and window ids are drawn.

Every member function is a function on `Process` (object plus world). A library
call is logged with the values of its argument expressions as they stand in the
source. Answers of the libraries that the code branches on are either inputs
(`XOpenDisplay` succeeding or not, what `XLookupString` leaves behind) or read
from the world (`cairo_surface_status`, `cairo_xlib_surface_get_display`).
-/

/-! ## Constants of the X11 core protocol (X11/X.h) and of the source -/

namespace Xlib

def KeyPress : Int := 2
def ButtonPress : Int := 4
def Expose : Int := 12
def ConfigureNotify : Int := 22
def ClientMessage : Int := 33

def KeyPressMask : Nat := 1
def ButtonPressMask : Nat := 4
def StructureNotifyMask : Nat := 131072

end Xlib

/-- The macro `EXIT_MESSAGE` of XorgBackend.cc, line 9. -/
def EXIT_MESSAGE : Int := 32

/-! ## Native event records (the views of the `XEvent` union the code reads) -/

/-- View `xbutton`: the members read by the translation. -/
structure XButtonEvent where
  button : Nat
  x : Int
  y : Int
deriving DecidableEq, Repr, Inhabited

/-- View `xkey`: what identifies the key to `XLookupString`. -/
structure XKeyEvent where
  keycode : Nat
  state : Nat
deriving DecidableEq, Repr, Inhabited

/-- The record `XClientMessageEvent` in full, since the abort closure builds one. -/
structure XClientMessageEvent where
  type : Int
  serial : Nat
  send_event : Int
  display : Option Nat
  window : Nat
  message_type : Nat
  format : Int
  data : List Int
deriving DecidableEq, Repr, Inhabited

/-- View `xconfigure`: the members read by the translation. -/
structure XConfigureEvent where
  x : Int
  y : Int
  width : Int
  height : Int
deriving DecidableEq, Repr, Inhabited

/-- The union `XEvent`: its shared first member `type` and the four views the
translation reads. The views are independent fields here, which allows every
memory content the union can hold. -/
structure XEvent where
  type : Int
  xbutton : XButtonEvent
  xkey : XKeyEvent
  xclient : XClientMessageEvent
  xconfigure : XConfigureEvent
deriving DecidableEq, Repr, Inhabited

/-- The local `char keybuf[8]` of the key-press case. -/
abbrev KeyBuf := Fin 8 → Nat

/-- What surrounds the call
`XLookupString(&event.xkey, keybuf, sizeof(keybuf), &key, NULL)` for one key
event: `before` is the content of the local `keybuf`, which the source does not
initialise, when the call is made; `stored` is the decoded text, the bytes the
call stores at the start of the buffer (its return value, which the source
discards, is their number); `key` is the key symbol it writes. -/
structure Lookup where
  before : KeyBuf
  stored : List Nat
  key : Nat

/-- The content of `keybuf` after the call: the stored bytes, and behind them
what the buffer held before. -/
def Lookup.keybuf (r : Lookup) : KeyBuf :=
  fun i => r.stored.getD i.val (r.before i)

/-- The bytes of a NUL-terminated C string stored in a key buffer. -/
def cString (buf : KeyBuf) : List Nat :=
  (List.ofFn buf).takeWhile (fun b => b != 0)

/-! ## The library side: call log and cairo surface records -/

inductive cairo_status_t where
  | CAIRO_STATUS_SUCCESS
  | CAIRO_STATUS_NULL_POINTER
  | CAIRO_STATUS_OTHER (code : Nat)
deriving DecidableEq, Repr, Inhabited

/-- A cairo Xlib surface record. `width` and `height` are the size last set on
the surface (at creation or by `cairo_xlib_surface_set_size`); `refs` is the
reference count, 1 at creation, and 0 once the last reference was dropped by
`cairo_surface_destroy`. -/
structure XlibSurface where
  display : Nat
  drawable : Nat
  width : Int
  height : Int
  status : cairo_status_t
  refs : Nat
deriving DecidableEq, Repr, Inhabited

/-- One library call issued by the code, with its arguments. Calls that only
read (`cairo_surface_status`, `cairo_xlib_surface_get_display`, the `Default...`
macros) are not logged, and the visual passed to `cairo_xlib_surface_create`, a
constant of the connection, is left out. `cairo_surface_reference` is not called
by XorgBackend.cc; it is what another holder of the surface calls. -/
inductive Call where
  | XOpenDisplay (result : Option Nat)
  | XCreateSimpleWindow (display parent : Nat) (x y width height : Int)
      (border_width border background : Nat)
  | XSelectInput (display drawable : Nat) (event_mask : Nat)
  | XMapWindow (display drawable : Nat)
  | cairo_xlib_surface_create (display drawable : Nat) (width height : Int)
  | cairo_xlib_surface_set_size (surface : Option Nat) (width height : Int)
  | cairo_surface_destroy (surface : Option Nat)
  | cairo_surface_reference (surface : Option Nat)
  | XCloseDisplay (display : Option Nat)
  | XSendEvent (display window : Nat) (propagate : Int) (event_mask : Nat)
      (event : XClientMessageEvent)
  | XFlush (display : Nat)
  | Nan_ThrowError (message : String)
deriving DecidableEq, Repr

/-- State of the libraries. A surface pointer is an index into `surfaces`; the
null pointer is `none`. -/
structure World where
  calls : List Call
  surfaces : List XlibSurface
  displays : Nat
  windows : Nat
  root : Nat
deriving DecidableEq, Repr

namespace World

/-- A process that has not called into the libraries yet. -/
def fresh : World :=
  { calls := [], surfaces := [], displays := 0, windows := 0, root := 0 }

def log (w : World) (c : Call) : World :=
  { w with calls := w.calls ++ [c] }

/-- The record behind a surface pointer, if the pointer is one cairo handed out. -/
def deref (w : World) (p : Option Nat) : Option XlibSurface :=
  match p with
  | none => none
  | some i => w.surfaces[i]?

end World

/-- Call `XOpenDisplay(NULL)`; whether the server accepts the connection is an
input. A new connection gets a handle not used before. -/
def XOpenDisplay (available : Bool) (w : World) : Option Nat × World :=
  if available then
    (some (w.displays + 1),
      { w with displays := w.displays + 1,
               calls := w.calls ++ [Call.XOpenDisplay (some (w.displays + 1))] })
  else
    (none, w.log (Call.XOpenDisplay none))

/-- The macro `DefaultRootWindow(display)`. -/
def DefaultRootWindow (w : World) (_display : Nat) : Nat := w.root

/-- Call `XCreateSimpleWindow`; returns a window id not used before. -/
def XCreateSimpleWindow (w : World) (display parent : Nat) (x y width height : Int)
    (border_width border background : Nat) : Nat × World :=
  (w.windows + 1,
    { w with windows := w.windows + 1,
             calls := w.calls ++ [Call.XCreateSimpleWindow display parent x y width height
               border_width border background] })

def XSelectInput (w : World) (display drawable event_mask : Nat) : World :=
  w.log (Call.XSelectInput display drawable event_mask)

def XMapWindow (w : World) (display drawable : Nat) : World :=
  w.log (Call.XMapWindow display drawable)

/-- Call `cairo_xlib_surface_create`; the new record starts with one reference
and the given size, and its pointer is the next free index. -/
def cairo_xlib_surface_create (w : World) (display drawable : Nat) (width height : Int) :
    Option Nat × World :=
  (some w.surfaces.length,
    { w with surfaces := w.surfaces ++
               [{ display := display, drawable := drawable, width := width, height := height,
                  status := cairo_status_t.CAIRO_STATUS_SUCCESS, refs := 1 }],
             calls := w.calls ++ [Call.cairo_xlib_surface_create display drawable width height] })

/-- Apply a change to the record behind a surface pointer, if there is one. -/
def World.modify (w : World) (p : Option Nat) (f : XlibSurface → XlibSurface) : World :=
  match p with
  | none => w
  | some i =>
    match w.surfaces[i]? with
    | none => w
    | some c => { w with surfaces := w.surfaces.set i (f c) }

/-- Call `cairo_xlib_surface_set_size`: the record takes the new size. -/
def cairo_xlib_surface_set_size (w : World) (p : Option Nat) (width height : Int) : World :=
  (w.modify p (fun c => { c with width := width, height := height })).log
    (Call.cairo_xlib_surface_set_size p width height)

/-- Call `cairo_surface_status`. The status member is read as stored: dropping
the last reference with `cairo_surface_destroy` releases the record but puts no
error status into it, so a pointer kept after the destroy still reads the old
status (in C that read is a use after free once no reference is left). For the
null pointer, which the C function does not accept, the answer here is
`CAIRO_STATUS_NULL_POINTER`, the reading most favourable to a guard on success. -/
def cairo_surface_status (w : World) (p : Option Nat) : cairo_status_t :=
  match w.deref p with
  | none => cairo_status_t.CAIRO_STATUS_NULL_POINTER
  | some c => c.status

/-- Call `cairo_xlib_surface_get_display`. -/
def cairo_xlib_surface_get_display (w : World) (p : Option Nat) : Option Nat :=
  (w.deref p).map (fun c => c.display)

/-- Call `cairo_surface_destroy`: one reference is dropped. -/
def cairo_surface_destroy (w : World) (p : Option Nat) : World :=
  (w.modify p (fun c => { c with refs := c.refs - 1 })).log (Call.cairo_surface_destroy p)

/-- Call `cairo_surface_reference`: one reference is added. This is how code
outside XorgBackend.cc that obtained the pointer from `getSurface()`, such as a
drawing context created on the surface, keeps the surface alive. -/
def cairo_surface_reference (w : World) (p : Option Nat) : World :=
  (w.modify p (fun c => { c with refs := c.refs + 1 })).log (Call.cairo_surface_reference p)

def XCloseDisplay (w : World) (display : Option Nat) : World :=
  w.log (Call.XCloseDisplay display)

def XSendEvent (w : World) (display window : Nat) (propagate : Int) (event_mask : Nat)
    (event : XClientMessageEvent) : World :=
  w.log (Call.XSendEvent display window propagate event_mask event)

def XFlush (w : World) (display : Nat) : World :=
  w.log (Call.XFlush display)

def Nan_ThrowError (w : World) (message : String) : World :=
  w.log (Call.Nan_ThrowError message)

/-! ## The object -/

/-- The closure stored in `abortCallback`: it captures `[drawable, display]`. -/
structure AbortClosure where
  drawable : Nat
  display : Nat
deriving DecidableEq, Repr

/-- Modelled from the spec: the base class `Backend` (Backend.h is not among the
sources) contributes the members `width`, `height` and `surface`; its constructor
stores the requested width and height and starts with no surface. `XorgBackend`
adds `abortCallback`, an empty `std::function` until `createSurface` arms it. -/
structure XorgBackend where
  width : Int
  height : Int
  surface : Option Nat
  abortCallback : Option AbortClosure
deriving DecidableEq, Repr

/-- The object together with the libraries it calls. -/
structure Process where
  backend : XorgBackend
  world : World
deriving DecidableEq, Repr

namespace XorgBackend

/-- The event built by the abort closure (lines 53 to 57): all members zero,
then `type`, `window` and `format`. -/
def dummyEvent (drawable : Nat) : XClientMessageEvent :=
  { type := Xlib.ClientMessage, serial := 0, send_event := 0, display := none,
    window := drawable, message_type := 0, format := EXIT_MESSAGE,
    data := [0, 0, 0, 0, 0] }

/-- Body of the abort closure (lines 52 to 60). -/
def invokeAbortCallback (cb : AbortClosure) (w : World) : World :=
  XFlush (XSendEvent w cb.display cb.drawable 0 0 (dummyEvent cb.drawable)) cb.display

/-- `XorgBackend::destroySurface` (lines 24 to 32). The member `surface` is not
assigned. -/
def destroySurface (s : Process) : Process :=
  if cairo_surface_status s.world s.backend.surface = cairo_status_t.CAIRO_STATUS_SUCCESS then
    let s1 : Process := { s with backend := { s.backend with abortCallback := none } }
    let display := cairo_xlib_surface_get_display s1.world s1.backend.surface
    let s2 : Process := { s1 with world := cairo_surface_destroy s1.world s1.backend.surface }
    { s2 with world := XCloseDisplay s2.world display }
  else
    s

/-- The same function, keeping the state after each of its statements that
changes something (lines 27, 29 and 30) in program order; empty when the guard
of line 26 fails. -/
def destroySurfaceStates (s : Process) : List Process :=
  if cairo_surface_status s.world s.backend.surface = cairo_status_t.CAIRO_STATUS_SUCCESS then
    let s1 : Process := { s with backend := { s.backend with abortCallback := none } }
    let display := cairo_xlib_surface_get_display s1.world s1.backend.surface
    let s2 : Process := { s1 with world := cairo_surface_destroy s1.world s1.backend.surface }
    let s3 : Process := { s2 with world := XCloseDisplay s2.world display }
    [s1, s2, s3]
  else
    []

/-- `XorgBackend::createSurface` (lines 40 to 73). -/
def createSurface (available : Bool) (s : Process) : Option Nat × Process :=
  match XOpenDisplay available s.world with
  | (none, w1) =>
    (none, { s with world := Nan_ThrowError w1 "Could not open display" })
  | (some display, w1) =>
    let window := DefaultRootWindow w1 display
    let (drawable, w2) :=
      XCreateSimpleWindow w1 display window 0 0 s.backend.width s.backend.height 0 0 0
    let w3 := XSelectInput w2 display drawable
      (Xlib.ButtonPressMask ||| Xlib.KeyPressMask ||| Xlib.StructureNotifyMask)
    let w4 := XMapWindow w3 display drawable
    let b1 : XorgBackend :=
      { s.backend with abortCallback := some { drawable := drawable, display := display } }
    let (screenSurface, w5) :=
      cairo_xlib_surface_create w4 display drawable b1.width b1.height
    let w6 := cairo_xlib_surface_set_size w5 screenSurface b1.width b1.height
    (screenSurface, { backend := { b1 with surface := screenSurface }, world := w6 })

/-- `XorgBackend::recreateSurface` (lines 34 to 38). -/
def recreateSurface (available : Bool) (s : Process) : Option Nat × Process :=
  createSurface available (destroySurface s)

/-- The constructor `XorgBackend::XorgBackend(width, height)` (lines 13 to 17),
which is all `XorgBackend::construct` runs. -/
def construct (width height : Int) (available : Bool) (w : World) : Process :=
  (createSurface available
    { backend := { width := width, height := height, surface := none, abortCallback := none },
      world := w }).2

/-- `XorgBackend::resize` (lines 187 to 195). -/
def resize (width height : Int) (s : Process) : Bool × Process :=
  if s.backend.width ≠ width ∨ s.backend.height ≠ height then
    let b : XorgBackend := { s.backend with width := width, height := height }
    (true, { backend := b, world := cairo_xlib_surface_set_size s.world b.surface b.width b.height })
  else
    (false, s)

/-- `XorgBackend::Abort` (lines 197 to 202). -/
def Abort (s : Process) : Process :=
  match s.backend.abortCallback with
  | some cb => { s with world := invokeAbortCallback cb s.world }
  | none => s

/-- The size last set on the surface the member `surface` points to. -/
def surfaceSize (s : Process) : Option (Int × Int) :=
  (s.world.deref s.backend.surface).map (fun c => (c.width, c.height))

end XorgBackend

/-! ## The event object handed to the callback -/

/-- Values stored into the event object. `cstr` is a string made by `Nan::New`
from a NUL-terminated byte buffer; `str` is one made from a string literal. -/
inductive JsValue where
  | null
  | num (n : Int)
  | str (s : String)
  | cstr (bytes : List Nat)
deriving DecidableEq, Repr, Inhabited

/-- A JavaScript object as its properties in insertion order. -/
abbrev JsObject := List (String × JsValue)

namespace JsObject

/-- The call `obj->Set(key, value)`. -/
def set (obj : JsObject) (key : String) (value : JsValue) : JsObject :=
  if obj.any (fun kv => kv.1 == key) then
    obj.map (fun kv => if kv.1 == key then (key, value) else kv)
  else
    obj ++ [(key, value)]

/-- Property lookup; `none` when the property is absent. -/
def get (obj : JsObject) (key : String) : Option JsValue :=
  (obj.find? (fun kv => kv.1 == key)).map (fun kv => kv.2)

end JsObject

/-- The two arguments of `callback->Call(2, argv, async_resource)`. -/
structure CallbackArgs where
  error : JsValue
  event : JsObject
deriving DecidableEq, Repr

namespace PollWorker

/-- `PollWorker::HandleOKCallback` (lines 111 to 180), for the event stored by
`Execute`. `lookup` stands for `XLookupString` and the uninitialised local
`keybuf` it is handed; only the buffer content after the call is read. -/
def HandleOKCallback (lookup : XKeyEvent → Lookup) (event : XEvent) (s : Process) :
    CallbackArgs × Process :=
  let obj : JsObject := []
  let (obj, s) : JsObject × Process :=
    if event.type = Xlib.ButtonPress then
      let obj := obj.set "type" (JsValue.str "button")
      let obj := obj.set "button" (JsValue.num event.xbutton.button)
      let obj := obj.set "x" (JsValue.num event.xbutton.x)
      let obj := obj.set "y" (JsValue.num event.xbutton.y)
      (obj, s)
    else if event.type = Xlib.KeyPress then
      let r := lookup event.xkey
      let key := r.key
      let keybuf : KeyBuf := Function.update r.keybuf 1 0
      let obj := obj.set "type" (JsValue.str "key")
      let obj := if keybuf 0 ≠ 0 then obj.set "value" (JsValue.cstr (cString keybuf)) else obj
      let obj := obj.set "sym" (JsValue.num ((key % 2 ^ 32 : Nat) : Int))
      (obj, s)
    else if event.type = Xlib.Expose then
      (obj.set "type" (JsValue.str "expose"), s)
    else if event.type = Xlib.ClientMessage then
      let obj := obj.set "type" (JsValue.str "message")
      let obj :=
        if event.xclient.format = EXIT_MESSAGE then obj.set "value" (JsValue.str "exit")
        else obj.set "value" (JsValue.num event.xclient.format)
      (obj, s)
    else if event.type = Xlib.ConfigureNotify then
      let (resized, s) := XorgBackend.resize event.xconfigure.width event.xconfigure.height s
      let obj :=
        if resized then obj.set "type" (JsValue.str "resize")
        else
          let obj := obj.set "type" (JsValue.str "configure_notify")
          let obj := obj.set "x" (JsValue.num event.xconfigure.x)
          obj.set "y" (JsValue.num event.xconfigure.y)
      let obj := obj.set "width" (JsValue.num event.xconfigure.width)
      let obj := obj.set "height" (JsValue.num event.xconfigure.height)
      (obj, s)
    else
      let obj := obj.set "type" (JsValue.str "unhandled")
      let obj := obj.set "value" (JsValue.num event.type)
      (obj, s)
  ({ error := JsValue.null, event := obj }, s)

end PollWorker

/-- The `XEvent` that reads back a client message through the union:
`reinterpret_cast<XEvent*>(&dummyEvent)` on the sending side. -/
def XEvent.ofClientMessage (m : XClientMessageEvent) : XEvent :=
  { type := m.type, xbutton := default, xkey := default, xclient := m, xconfigure := default }

/-! ## Histories of an open backend -/

/-- One thing that can happen to a backend after it was opened. -/
inductive Op where
  | resize (width height : Int)
  | translate (event : XEvent)
  | recreate
deriving DecidableEq, Repr

/-- Perform one operation; `recreate` is a `recreateSurface` whose connection
attempt succeeds. -/
def Op.apply (lookup : XKeyEvent → Lookup) (op : Op) (s : Process) : Process :=
  match op with
  | Op.resize width height => (XorgBackend.resize width height s).2
  | Op.translate event => (PollWorker.HandleOKCallback lookup event s).2
  | Op.recreate => (XorgBackend.recreateSurface true s).2

/-- Perform a sequence of operations, first to last. -/
def Op.run (lookup : XKeyEvent → Lookup) (ops : List Op) (s : Process) : Process :=
  ops.foldl (fun t op => op.apply lookup t) s

/-- A lookup used in the worked examples, with the buffer zeroed beforehand:
key code 38 is the letter a (keysym 0x61), every other key decodes to no text
and keysym 0xffe1 (left shift). -/
def exampleLookup (k : XKeyEvent) : Lookup :=
  if k.keycode = 38 then { before := fun _ => 0, stored := [97], key := 97 }
  else { before := fun _ => 0, stored := [], key := 65505 }

/-- A lookup for key codes that have no symbols: nothing is stored, the key
symbol is NoSymbol (0), and the buffer still holds the byte 65 (the letter A)
that an earlier use of the same stack memory left in every cell. -/
def staleLookup (_k : XKeyEvent) : Lookup :=
  { before := fun _ => 65, stored := [], key := 0 }

/-- The 800 by 600 backend of the worked examples, opened in a fresh process. -/
def exampleBackend : Process := XorgBackend.construct 800 600 true World.fresh

/-- The same backend after a drawing context took its own reference to the
surface returned by `getSurface()`. -/
def exampleBackendShared : Process :=
  { exampleBackend with
    world := cairo_surface_reference exampleBackend.world exampleBackend.backend.surface }

/-! ## Facts about the library model -/

namespace World

theorem deref_log (w : World) (c : Call) (p : Option Nat) : (w.log c).deref p = w.deref p := by
  cases p <;> rfl

theorem calls_modify (w : World) (p : Option Nat) (f : XlibSurface → XlibSurface) :
    (w.modify p f).calls = w.calls := by
  unfold World.modify
  cases p with
  | none => rfl
  | some i => dsimp only; cases w.surfaces[i]? <;> rfl

theorem deref_modify (w : World) (p : Option Nat) (f : XlibSurface → XlibSurface) :
    (w.modify p f).deref p = (w.deref p).map f := by
  unfold World.modify World.deref
  cases p with
  | none => rfl
  | some i =>
    dsimp only
    cases h : w.surfaces[i]? with
    | none => simp [h]
    | some c =>
      have hi : i < w.surfaces.length := by
        rcases List.getElem?_eq_some.mp h with ⟨hi, _⟩
        exact hi
      simp [List.getElem?_set_self, hi]

end World

namespace XorgBackend

theorem surfaceSize_set_size (b : XorgBackend) (w : World) (width height : Int) :
    surfaceSize { backend := b, world := cairo_xlib_surface_set_size w b.surface width height }
      = (surfaceSize { backend := b, world := w }).map (fun _ => (width, height)) := by
  unfold surfaceSize cairo_xlib_surface_set_size
  simp only [World.deref_log, World.deref_modify, Option.map_map]
  rfl

theorem resize_same (s : Process) : resize s.backend.width s.backend.height s = (false, s) := by
  simp [resize]

theorem resize_changed (s : Process) (w h : Int)
    (hne : s.backend.width ≠ w ∨ s.backend.height ≠ h) :
    resize w h s =
      (true, { backend := { s.backend with width := w, height := h },
               world := cairo_xlib_surface_set_size s.world s.backend.surface w h }) := by
  simp [resize, hne]

end XorgBackend

/-! ## Resize -/

/-- C1. For every process and every pair of integers (w, h): `resize` returns
false exactly when (w, h) are the current dimensions, and then nothing at all
changes; otherwise it returns true, `width` and `height` become w and h, the
surface pointer and abort closure are kept, exactly one call
`cairo_xlib_surface_set_size(surface, w, h)` is issued, and the size set on the
bound surface (when the pointer has a record) is (w, h). -/
theorem XorgBackend.resize_contract (s : Process) (w h : Int) :
    ((XorgBackend.resize w h s).1 = false ↔ (w, h) = (s.backend.width, s.backend.height)) ∧
    (if (w, h) = (s.backend.width, s.backend.height) then
       XorgBackend.resize w h s = (false, s) ∧
       XorgBackend.surfaceSize (XorgBackend.resize w h s).2 = XorgBackend.surfaceSize s
     else
       (XorgBackend.resize w h s).1 = true ∧
       (XorgBackend.resize w h s).2.backend
         = { s.backend with width := w, height := h } ∧
       (XorgBackend.resize w h s).2.world.calls
         = s.world.calls ++ [Call.cairo_xlib_surface_set_size s.backend.surface w h] ∧
       XorgBackend.surfaceSize (XorgBackend.resize w h s).2
         = (XorgBackend.surfaceSize s).map (fun _ => (w, h))) := by
  by_cases heq : (w, h) = (s.backend.width, s.backend.height)
  · have hw : w = s.backend.width := (Prod.mk.inj heq).1
    have hh : h = s.backend.height := (Prod.mk.inj heq).2
    subst hw hh
    simp [XorgBackend.resize_same]
  · have hne : s.backend.width ≠ w ∨ s.backend.height ≠ h := by
      by_contra hcon
      push_neg at hcon
      exact heq (by rw [hcon.1, hcon.2])
    rw [XorgBackend.resize_changed s w h hne]
    refine ⟨by simp [heq], ?_⟩
    rw [if_neg heq]
    refine ⟨rfl, rfl, ?_, ?_⟩
    · simp [cairo_xlib_surface_set_size, World.log, World.calls_modify]
    · exact XorgBackend.surfaceSize_set_size _ _ _ _

/-! ## Event translation -/

namespace PollWorker

theorem HandleOKCallback_configure (lookup : XKeyEvent → Lookup) (event : XEvent) (s : Process)
    (ht : event.type = Xlib.ConfigureNotify) :
    HandleOKCallback lookup event s =
      if s.backend.width ≠ event.xconfigure.width ∨ s.backend.height ≠ event.xconfigure.height then
        ({ error := JsValue.null,
           event := [("type", JsValue.str "resize"),
                     ("width", JsValue.num event.xconfigure.width),
                     ("height", JsValue.num event.xconfigure.height)] },
         (XorgBackend.resize event.xconfigure.width event.xconfigure.height s).2)
      else
        ({ error := JsValue.null,
           event := [("type", JsValue.str "configure_notify"),
                     ("x", JsValue.num event.xconfigure.x),
                     ("y", JsValue.num event.xconfigure.y),
                     ("width", JsValue.num event.xconfigure.width),
                     ("height", JsValue.num event.xconfigure.height)] },
         s) := by
  unfold HandleOKCallback
  rw [ht]
  by_cases hne : s.backend.width ≠ event.xconfigure.width ∨
      s.backend.height ≠ event.xconfigure.height
  · rw [if_pos hne]
    simp [Xlib.ConfigureNotify, Xlib.ButtonPress, Xlib.KeyPress, Xlib.Expose, Xlib.ClientMessage,
      XorgBackend.resize_changed s _ _ hne, JsObject.set]
  · rw [if_neg hne]
    simp [Xlib.ConfigureNotify, Xlib.ButtonPress, Xlib.KeyPress, Xlib.Expose, Xlib.ClientMessage,
      XorgBackend.resize, hne, JsObject.set]

end PollWorker

/-- C2. A ConfigureNotify event whose (width, height) differ from the backend's
dimensions is translated to [type: "resize", width, height] without x or y, the
backend takes the event's dimensions through exactly one
`cairo_xlib_surface_set_size` call, and a following `resize` with the same values
returns false and changes nothing; an event whose (width, height) equal the
dimensions is translated to [type: "configure_notify", x, y, width, height] and
the process is unchanged. -/
theorem PollWorker.configureNotify_translation (lookup : XKeyEvent → Lookup) (event : XEvent)
    (s : Process) (ht : event.type = Xlib.ConfigureNotify) :
    if (event.xconfigure.width, event.xconfigure.height) ≠ (s.backend.width, s.backend.height) then
      (PollWorker.HandleOKCallback lookup event s).1 =
        { error := JsValue.null,
          event := [("type", JsValue.str "resize"),
                    ("width", JsValue.num event.xconfigure.width),
                    ("height", JsValue.num event.xconfigure.height)] } ∧
      (PollWorker.HandleOKCallback lookup event s).1.event.get "x" = none ∧
      (PollWorker.HandleOKCallback lookup event s).1.event.get "y" = none ∧
      (PollWorker.HandleOKCallback lookup event s).2.backend =
        { s.backend with width := event.xconfigure.width, height := event.xconfigure.height } ∧
      (PollWorker.HandleOKCallback lookup event s).2.world.calls =
        s.world.calls ++ [Call.cairo_xlib_surface_set_size s.backend.surface
          event.xconfigure.width event.xconfigure.height] ∧
      XorgBackend.surfaceSize (PollWorker.HandleOKCallback lookup event s).2 =
        (XorgBackend.surfaceSize s).map
          (fun _ => (event.xconfigure.width, event.xconfigure.height)) ∧
      XorgBackend.resize event.xconfigure.width event.xconfigure.height
          (PollWorker.HandleOKCallback lookup event s).2 =
        (false, (PollWorker.HandleOKCallback lookup event s).2)
    else
      PollWorker.HandleOKCallback lookup event s =
        ({ error := JsValue.null,
           event := [("type", JsValue.str "configure_notify"),
                     ("x", JsValue.num event.xconfigure.x),
                     ("y", JsValue.num event.xconfigure.y),
                     ("width", JsValue.num event.xconfigure.width),
                     ("height", JsValue.num event.xconfigure.height)] },
         s) := by
  rw [PollWorker.HandleOKCallback_configure lookup event s ht]
  by_cases hne : s.backend.width ≠ event.xconfigure.width ∨
      s.backend.height ≠ event.xconfigure.height
  · have hpair : (event.xconfigure.width, event.xconfigure.height)
        ≠ (s.backend.width, s.backend.height) := by
      intro h
      rcases hne with h1 | h1
      · exact h1 (Prod.mk.inj h).1.symm
      · exact h1 (Prod.mk.inj h).2.symm
    rw [if_pos hpair, if_pos hne, XorgBackend.resize_changed s _ _ hne]
    refine ⟨rfl, by simp [JsObject.get], by simp [JsObject.get], rfl, ?_, ?_, ?_⟩
    · simp [cairo_xlib_surface_set_size, World.log, World.calls_modify]
    · exact XorgBackend.surfaceSize_set_size _ _ _ _
    · exact XorgBackend.resize_same _
  · have hpair : ¬ (event.xconfigure.width, event.xconfigure.height)
        ≠ (s.backend.width, s.backend.height) := by
      push_neg at hne
      simp [hne.1, hne.2]
    rw [if_neg hpair, if_neg hne]

/-- Witness for C2: the 800 by 600 backend receives a ConfigureNotify for 1024 by 768. -/
theorem PollWorker.configureNotify_translation_witness :
    ({ (default : XEvent) with
        type := 22, xconfigure := { x := 5, y := 7, width := 1024, height := 768 } }).type
      = Xlib.ConfigureNotify ∧
    (PollWorker.HandleOKCallback exampleLookup
        { (default : XEvent) with
          type := 22, xconfigure := { x := 5, y := 7, width := 1024, height := 768 } }
        exampleBackend).1 =
      { error := JsValue.null,
        event := [("type", JsValue.str "resize"), ("width", JsValue.num 1024),
                  ("height", JsValue.num 768)] } ∧
    (XorgBackend.resize 1024 768
      (PollWorker.HandleOKCallback exampleLookup
        { (default : XEvent) with
          type := 22, xconfigure := { x := 5, y := 7, width := 1024, height := 768 } }
        exampleBackend).2).1 = false := by
  have h := PollWorker.configureNotify_translation exampleLookup
    { (default : XEvent) with
      type := 22, xconfigure := { x := 5, y := 7, width := 1024, height := 768 } }
    exampleBackend rfl
  rw [if_pos (by decide)] at h
  exact ⟨rfl, h.1, by rw [h.2.2.2.2.2.2]⟩

/-! ## Creating the surface -/

namespace XorgBackend

theorem createSurface_true_fst (t : Process) :
    (createSurface true t).1 = some t.world.surfaces.length := by
  simp [createSurface, XOpenDisplay, XCreateSimpleWindow, XSelectInput, XMapWindow,
    cairo_xlib_surface_create, World.log]

theorem createSurface_true_backend (t : Process) :
    (createSurface true t).2.backend =
      { t.backend with
        surface := some t.world.surfaces.length,
        abortCallback := some { drawable := t.world.windows + 1,
                                display := t.world.displays + 1 } } := by
  simp [createSurface, XOpenDisplay, XCreateSimpleWindow, XSelectInput, XMapWindow,
    cairo_xlib_surface_create, World.log]

theorem createSurface_true_calls (t : Process) :
    (createSurface true t).2.world.calls =
      t.world.calls ++
        [Call.XOpenDisplay (some (t.world.displays + 1)),
         Call.XCreateSimpleWindow (t.world.displays + 1) t.world.root 0 0
           t.backend.width t.backend.height 0 0 0,
         Call.XSelectInput (t.world.displays + 1) (t.world.windows + 1) 131077,
         Call.XMapWindow (t.world.displays + 1) (t.world.windows + 1),
         Call.cairo_xlib_surface_create (t.world.displays + 1) (t.world.windows + 1)
           t.backend.width t.backend.height,
         Call.cairo_xlib_surface_set_size (some t.world.surfaces.length)
           t.backend.width t.backend.height] := by
  simp [createSurface, XOpenDisplay, XCreateSimpleWindow, XSelectInput, XMapWindow,
    cairo_xlib_surface_create, cairo_xlib_surface_set_size, World.log, World.calls_modify,
    DefaultRootWindow]
  decide

theorem createSurface_true_size (t : Process) :
    surfaceSize (createSurface true t).2 = some (t.backend.width, t.backend.height) := by
  simp [createSurface, XOpenDisplay, XCreateSimpleWindow, XSelectInput, XMapWindow,
    cairo_xlib_surface_create, cairo_xlib_surface_set_size, World.log, surfaceSize,
    World.deref, World.modify]

end XorgBackend

theorem PollWorker.HandleOKCallback_process (lookup : XKeyEvent → Lookup) (event : XEvent)
    (s : Process) :
    (PollWorker.HandleOKCallback lookup event s).2 =
      if event.type = Xlib.ConfigureNotify then
        (XorgBackend.resize event.xconfigure.width event.xconfigure.height s).2
      else s := by
  by_cases ht : event.type = Xlib.ConfigureNotify
  · rw [if_pos ht, PollWorker.HandleOKCallback_configure lookup event s ht]
    by_cases hne : s.backend.width ≠ event.xconfigure.width ∨
        s.backend.height ≠ event.xconfigure.height
    · rw [if_pos hne]
    · rw [if_neg hne]
      simp [XorgBackend.resize, hne]
  · rw [if_neg ht]
    unfold PollWorker.HandleOKCallback
    simp only [if_neg ht]
    split_ifs <;> rfl

theorem XorgBackend.resize_keeps_sized (w h : Int) (s : Process)
    (hs : s.backend.surface ≠ none ∧
      XorgBackend.surfaceSize s = some (s.backend.width, s.backend.height)) :
    (XorgBackend.resize w h s).2.backend.surface ≠ none ∧
      XorgBackend.surfaceSize (XorgBackend.resize w h s).2 =
        some ((XorgBackend.resize w h s).2.backend.width,
              (XorgBackend.resize w h s).2.backend.height) := by
  by_cases hne : s.backend.width ≠ w ∨ s.backend.height ≠ h
  · rw [XorgBackend.resize_changed s w h hne]
    refine ⟨hs.1, ?_⟩
    rw [XorgBackend.surfaceSize_set_size]
    have h0 : XorgBackend.surfaceSize
        { backend := { s.backend with width := w, height := h }, world := s.world }
          = XorgBackend.surfaceSize s := rfl
    rw [h0, hs.2]
    rfl
  · have hsame : XorgBackend.resize w h s = (false, s) := by simp [XorgBackend.resize, hne]
    rw [hsame]
    exact hs

theorem Op.apply_keeps_sized (lookup : XKeyEvent → Lookup) (op : Op) (s : Process)
    (hs : s.backend.surface ≠ none ∧
      XorgBackend.surfaceSize s = some (s.backend.width, s.backend.height)) :
    (op.apply lookup s).backend.surface ≠ none ∧
      XorgBackend.surfaceSize (op.apply lookup s) =
        some ((op.apply lookup s).backend.width, (op.apply lookup s).backend.height) := by
  cases op with
  | resize w h => exact XorgBackend.resize_keeps_sized w h s hs
  | translate event =>
    simp only [Op.apply]
    rw [PollWorker.HandleOKCallback_process]
    split_ifs
    · exact XorgBackend.resize_keeps_sized _ _ s hs
    · exact hs
  | recreate =>
    simp only [Op.apply, XorgBackend.recreateSurface]
    rw [XorgBackend.createSurface_true_size, XorgBackend.createSurface_true_backend]
    exact ⟨by simp, rfl⟩

theorem Op.run_keeps_sized (lookup : XKeyEvent → Lookup) (ops : List Op) (s : Process)
    (hs : s.backend.surface ≠ none ∧
      XorgBackend.surfaceSize s = some (s.backend.width, s.backend.height)) :
    (Op.run lookup ops s).backend.surface ≠ none ∧
      XorgBackend.surfaceSize (Op.run lookup ops s) =
        some ((Op.run lookup ops s).backend.width, (Op.run lookup ops s).backend.height) := by
  induction ops generalizing s with
  | nil => exact hs
  | cons op rest ih => exact ih (op.apply lookup s) (Op.apply_keeps_sized lookup op s hs)

/-- C3. In every state reached from a successful `createSurface` (started in any
process) by any sequence of `resize` calls, translations of any raw event and
successful `recreateSurface` calls, the member `surface` is non-null and the size
last set on that surface equals the backend's (width, height). -/
theorem XorgBackend.open_state_invariant (lookup : XKeyEvent → Lookup) (s0 : Process)
    (ops : List Op) :
    (Op.run lookup ops (XorgBackend.createSurface true s0).2).backend.surface ≠ none ∧
    XorgBackend.surfaceSize (Op.run lookup ops (XorgBackend.createSurface true s0).2) =
      some ((Op.run lookup ops (XorgBackend.createSurface true s0).2).backend.width,
            (Op.run lookup ops (XorgBackend.createSurface true s0).2).backend.height) := by
  apply Op.run_keeps_sized
  rw [XorgBackend.createSurface_true_size, XorgBackend.createSurface_true_backend]
  exact ⟨by simp, rfl⟩

/-! ## Destroying the surface and the abort signal -/

namespace XorgBackend

theorem destroySurface_eq (s : Process) :
    destroySurface s =
      if cairo_surface_status s.world s.backend.surface = cairo_status_t.CAIRO_STATUS_SUCCESS then
        { backend := { s.backend with abortCallback := none },
          world := XCloseDisplay (cairo_surface_destroy s.world s.backend.surface)
            (cairo_xlib_surface_get_display s.world s.backend.surface) }
      else s := by
  unfold destroySurface
  split_ifs <;> rfl

theorem destroySurface_width (s : Process) :
    (destroySurface s).backend.width = s.backend.width := by
  rw [destroySurface_eq]; split_ifs <;> rfl

theorem destroySurface_height (s : Process) :
    (destroySurface s).backend.height = s.backend.height := by
  rw [destroySurface_eq]; split_ifs <;> rfl

end XorgBackend

/-- C5. For every open backend (the guard of `destroySurface` sees a surface
with status success): the first statement executed empties `abortCallback` while
the libraries are untouched, only then `cairo_surface_destroy` and
`XCloseDisplay` are issued, in that order, with `abortCallback` still empty; and
an `Abort` after `destroySurface` changes nothing: no `XSendEvent`, no `XFlush`,
no `Nan::ThrowError`. -/
theorem XorgBackend.destroySurface_disarms (s : Process)
    (hopen : cairo_surface_status s.world s.backend.surface
      = cairo_status_t.CAIRO_STATUS_SUCCESS) :
    (XorgBackend.destroySurfaceStates s).head? =
      some { s with backend := { s.backend with abortCallback := none } } ∧
    (XorgBackend.destroySurfaceStates s).map (fun t => (t.backend.abortCallback, t.world.calls)) =
      [(none, s.world.calls),
       (none, s.world.calls ++ [Call.cairo_surface_destroy s.backend.surface]),
       (none, s.world.calls ++
          [Call.cairo_surface_destroy s.backend.surface,
           Call.XCloseDisplay (cairo_xlib_surface_get_display s.world s.backend.surface)])] ∧
    (XorgBackend.destroySurfaceStates s).getLast? = some (XorgBackend.destroySurface s) ∧
    (XorgBackend.destroySurface s).backend.abortCallback = none ∧
    XorgBackend.Abort (XorgBackend.destroySurface s) = XorgBackend.destroySurface s := by
  have hstates : XorgBackend.destroySurfaceStates s =
      [{ s with backend := { s.backend with abortCallback := none } },
       { backend := { s.backend with abortCallback := none },
         world := cairo_surface_destroy s.world s.backend.surface },
       { backend := { s.backend with abortCallback := none },
         world := XCloseDisplay (cairo_surface_destroy s.world s.backend.surface)
           (cairo_xlib_surface_get_display s.world s.backend.surface) }] := by
    unfold XorgBackend.destroySurfaceStates
    rw [if_pos hopen]
  have hd := XorgBackend.destroySurface_eq s
  rw [if_pos hopen] at hd
  refine ⟨?_, ?_, ?_, ?_, ?_⟩
  · rw [hstates]; rfl
  · rw [hstates]
    simp [XCloseDisplay, cairo_surface_destroy, World.log, World.calls_modify]
  · rw [hstates, hd]; rfl
  · rw [hd]
  · rw [hd]; rfl

/-- Witness for C5: the 800 by 600 backend of the examples is open. -/
theorem XorgBackend.destroySurface_disarms_witness :
    cairo_surface_status exampleBackend.world exampleBackend.backend.surface
      = cairo_status_t.CAIRO_STATUS_SUCCESS ∧
    (XorgBackend.destroySurfaceStates exampleBackend).map
        (fun t => (t.backend.abortCallback, t.world.calls.drop 6)) =
      [(none, []),
       (none, [Call.cairo_surface_destroy (some 0)]),
       (none, [Call.cairo_surface_destroy (some 0), Call.XCloseDisplay (some 1)])] ∧
    XorgBackend.Abort (XorgBackend.destroySurface exampleBackend)
      = XorgBackend.destroySurface exampleBackend :=
  ⟨by decide, by decide,
    (XorgBackend.destroySurface_disarms exampleBackend (by decide)).2.2.2.2⟩

/-! ## Recreating the surface -/

/-- C7. For every backend whose dimensions are (w, h), a `recreateSurface` whose
connection attempt succeeds is `destroySurface` followed by `createSurface`; it
keeps `width` and `height`, returns the new non-null surface stored in the member
`surface`, issues after the teardown exactly the calls that open a connection,
create and map the window at (w, h) and create and size the surface at (w, h),
and a `resize(w, h)` right after it returns false and changes nothing. -/
theorem XorgBackend.recreate_round_trip (s : Process) (w h : Int)
    (hw : s.backend.width = w) (hh : s.backend.height = h) :
    XorgBackend.recreateSurface true s
      = XorgBackend.createSurface true (XorgBackend.destroySurface s) ∧
    (XorgBackend.recreateSurface true s).2.backend.width = w ∧
    (XorgBackend.recreateSurface true s).2.backend.height = h ∧
    (XorgBackend.recreateSurface true s).1 ≠ none ∧
    (XorgBackend.recreateSurface true s).2.backend.surface
      = (XorgBackend.recreateSurface true s).1 ∧
    XorgBackend.surfaceSize (XorgBackend.recreateSurface true s).2 = some (w, h) ∧
    (XorgBackend.recreateSurface true s).2.world.calls =
      (XorgBackend.destroySurface s).world.calls ++
        [Call.XOpenDisplay (some ((XorgBackend.destroySurface s).world.displays + 1)),
         Call.XCreateSimpleWindow ((XorgBackend.destroySurface s).world.displays + 1)
           (XorgBackend.destroySurface s).world.root 0 0 w h 0 0 0,
         Call.XSelectInput ((XorgBackend.destroySurface s).world.displays + 1)
           ((XorgBackend.destroySurface s).world.windows + 1)
           (Xlib.ButtonPressMask ||| Xlib.KeyPressMask ||| Xlib.StructureNotifyMask),
         Call.XMapWindow ((XorgBackend.destroySurface s).world.displays + 1)
           ((XorgBackend.destroySurface s).world.windows + 1),
         Call.cairo_xlib_surface_create ((XorgBackend.destroySurface s).world.displays + 1)
           ((XorgBackend.destroySurface s).world.windows + 1) w h,
         Call.cairo_xlib_surface_set_size (XorgBackend.recreateSurface true s).1 w h] ∧
    XorgBackend.resize w h (XorgBackend.recreateSurface true s).2
      = (false, (XorgBackend.recreateSurface true s).2) := by
  have hw2 : (XorgBackend.destroySurface s).backend.width = w := by
    rw [XorgBackend.destroySurface_width, hw]
  have hh2 : (XorgBackend.destroySurface s).backend.height = h := by
    rw [XorgBackend.destroySurface_height, hh]
  have hb := XorgBackend.createSurface_true_backend (XorgBackend.destroySurface s)
  have hwn : (XorgBackend.recreateSurface true s).2.backend.width = w := by
    unfold XorgBackend.recreateSurface; rw [hb]; exact hw2
  have hhn : (XorgBackend.recreateSurface true s).2.backend.height = h := by
    unfold XorgBackend.recreateSurface; rw [hb]; exact hh2
  refine ⟨rfl, hwn, hhn, ?_, ?_, ?_, ?_, ?_⟩
  · unfold XorgBackend.recreateSurface
    rw [XorgBackend.createSurface_true_fst]
    simp
  · unfold XorgBackend.recreateSurface
    rw [hb, XorgBackend.createSurface_true_fst]
  · unfold XorgBackend.recreateSurface
    rw [XorgBackend.createSurface_true_size, hw2, hh2]
  · unfold XorgBackend.recreateSurface
    rw [XorgBackend.createSurface_true_calls, XorgBackend.createSurface_true_fst, hw2, hh2]
    rfl
  · have hsame := XorgBackend.resize_same (XorgBackend.recreateSurface true s).2
    rw [hwn, hhn] at hsame
    exact hsame

/-- Witness for C7: the 800 by 600 backend of the examples is recreated. -/
theorem XorgBackend.recreate_round_trip_witness :
    exampleBackend.backend.width = 800 ∧ exampleBackend.backend.height = 600 ∧
    (XorgBackend.recreateSurface true exampleBackend).1 = some 1 ∧
    XorgBackend.surfaceSize (XorgBackend.recreateSurface true exampleBackend).2
      = some (800, 600) ∧
    XorgBackend.resize 800 600 (XorgBackend.recreateSurface true exampleBackend).2
      = (false, (XorgBackend.recreateSurface true exampleBackend).2) :=
  ⟨rfl, rfl, by decide,
    (XorgBackend.recreate_round_trip exampleBackend 800 600 rfl rfl).2.2.2.2.2.1,
    (XorgBackend.recreate_round_trip exampleBackend 800 600 rfl rfl).2.2.2.2.2.2.2⟩

/-! ## Client messages, key presses and the catch-all -/

theorem cString_truncated (buf : KeyBuf) :
    cString (Function.update buf 1 0) = if buf 0 ≠ 0 then [buf 0] else [] := by
  by_cases h0 : buf 0 = 0
  · simp [cString, List.ofFn_succ, List.takeWhile_cons, Function.update, h0]
  · simp [cString, List.ofFn_succ, List.takeWhile_cons, Function.update, h0]

namespace PollWorker

theorem HandleOKCallback_client (lookup : XKeyEvent → Lookup) (event : XEvent) (s : Process)
    (ht : event.type = Xlib.ClientMessage) :
    HandleOKCallback lookup event s =
      ({ error := JsValue.null,
         event := [("type", JsValue.str "message"),
                   ("value", if event.xclient.format = 32 then JsValue.str "exit"
                             else JsValue.num event.xclient.format)] },
       s) := by
  unfold HandleOKCallback
  rw [ht]
  by_cases hf : event.xclient.format = 32
  · simp [Xlib.ConfigureNotify, Xlib.ButtonPress, Xlib.KeyPress, Xlib.Expose, Xlib.ClientMessage,
      EXIT_MESSAGE, hf, JsObject.set]
  · simp [Xlib.ConfigureNotify, Xlib.ButtonPress, Xlib.KeyPress, Xlib.Expose, Xlib.ClientMessage,
      EXIT_MESSAGE, hf, JsObject.set]

theorem HandleOKCallback_key (lookup : XKeyEvent → Lookup) (event : XEvent) (s : Process)
    (ht : event.type = Xlib.KeyPress) :
    HandleOKCallback lookup event s =
      ({ error := JsValue.null,
         event :=
           if (lookup event.xkey).keybuf 0 ≠ 0 then
             [("type", JsValue.str "key"),
              ("value", JsValue.cstr [(lookup event.xkey).keybuf 0]),
              ("sym", JsValue.num (((lookup event.xkey).key % 2 ^ 32 : Nat) : Int))]
           else
             [("type", JsValue.str "key"),
              ("sym", JsValue.num (((lookup event.xkey).key % 2 ^ 32 : Nat) : Int))] },
       s) := by
  unfold HandleOKCallback
  rw [ht]
  by_cases h0 : (lookup event.xkey).keybuf 0 = 0
  · simp [Xlib.ConfigureNotify, Xlib.ButtonPress, Xlib.KeyPress, Xlib.Expose, Xlib.ClientMessage,
      h0, JsObject.set, Function.update]
  · simp [Xlib.ConfigureNotify, Xlib.ButtonPress, Xlib.KeyPress, Xlib.Expose, Xlib.ClientMessage,
      h0, JsObject.set, cString_truncated, Function.update]

end PollWorker

/-- C8. Every ClientMessage event is translated to [type: "message", value]
where value is the string "exit" when the format is 32 and the format integer
itself otherwise, and the process is unchanged. An armed abort signal sends, and
then flushes, exactly one event with type ClientMessage, window the captured
drawable, format 32 and every other member zero; that event is translated to
[type: "message", value: "exit"], again with the process unchanged. -/
theorem PollWorker.clientMessage_translation (lookup : XKeyEvent → Lookup) (event : XEvent)
    (s : Process) (cb : AbortClosure)
    (ht : event.type = Xlib.ClientMessage) (harmed : s.backend.abortCallback = some cb) :
    PollWorker.HandleOKCallback lookup event s =
      ({ error := JsValue.null,
         event := [("type", JsValue.str "message"),
                   ("value", if event.xclient.format = 32 then JsValue.str "exit"
                             else JsValue.num event.xclient.format)] },
       s) ∧
    (XorgBackend.Abort s).backend = s.backend ∧
    (XorgBackend.Abort s).world.calls =
      s.world.calls ++
        [Call.XSendEvent cb.display cb.drawable 0 0 (XorgBackend.dummyEvent cb.drawable),
         Call.XFlush cb.display] ∧
    XorgBackend.dummyEvent cb.drawable =
      { type := Xlib.ClientMessage, serial := 0, send_event := 0, display := none,
        window := cb.drawable, message_type := 0, format := 32, data := [0, 0, 0, 0, 0] } ∧
    PollWorker.HandleOKCallback lookup (XEvent.ofClientMessage (XorgBackend.dummyEvent cb.drawable))
        (XorgBackend.Abort s) =
      ({ error := JsValue.null,
         event := [("type", JsValue.str "message"), ("value", JsValue.str "exit")] },
       XorgBackend.Abort s) := by
  refine ⟨PollWorker.HandleOKCallback_client lookup event s ht, ?_, ?_, rfl, ?_⟩
  · simp [XorgBackend.Abort, harmed]
  · simp [XorgBackend.Abort, harmed, XorgBackend.invokeAbortCallback, XFlush, XSendEvent, World.log]
  · rw [PollWorker.HandleOKCallback_client lookup _ _ rfl]
    rfl

/-- Witness for C8: the armed 800 by 600 backend and a ClientMessage of format 8. -/
theorem PollWorker.clientMessage_translation_witness :
    ({ (default : XEvent) with
        type := 33, xclient := { (default : XClientMessageEvent) with format := 8 } }).type
      = Xlib.ClientMessage ∧
    exampleBackend.backend.abortCallback = some { drawable := 1, display := 1 } ∧
    PollWorker.HandleOKCallback exampleLookup
        { (default : XEvent) with
          type := 33, xclient := { (default : XClientMessageEvent) with format := 8 } }
        exampleBackend =
      ({ error := JsValue.null,
         event := [("type", JsValue.str "message"), ("value", JsValue.num 8)] },
       exampleBackend) ∧
    PollWorker.HandleOKCallback exampleLookup (XEvent.ofClientMessage (XorgBackend.dummyEvent 1))
        (XorgBackend.Abort exampleBackend) =
      ({ error := JsValue.null,
         event := [("type", JsValue.str "message"), ("value", JsValue.str "exit")] },
       XorgBackend.Abort exampleBackend) :=
  ⟨rfl, rfl,
    (PollWorker.clientMessage_translation exampleLookup
      { (default : XEvent) with
        type := 33, xclient := { (default : XClientMessageEvent) with format := 8 } }
      exampleBackend { drawable := 1, display := 1 } rfl rfl).1,
    (PollWorker.clientMessage_translation exampleLookup
      { (default : XEvent) with
        type := 33, xclient := { (default : XClientMessageEvent) with format := 8 } }
      exampleBackend { drawable := 1, display := 1 } rfl rfl).2.2.2.2⟩

theorem PollWorker.HandleOKCallback_key_text (lookup : XKeyEvent → Lookup) (event : XEvent)
    (s : Process) (c : Nat) (rest : List Nat) (ht : event.type = Xlib.KeyPress)
    (hst : (lookup event.xkey).stored = c :: rest) (hc : c ≠ 0) :
    PollWorker.HandleOKCallback lookup event s =
      ({ error := JsValue.null,
         event := [("type", JsValue.str "key"), ("value", JsValue.cstr [c]),
                   ("sym", JsValue.num (((lookup event.xkey).key % 2 ^ 32 : Nat) : Int))] },
       s) := by
  have h0 : (lookup event.xkey).keybuf 0 = c := by simp [Lookup.keybuf, hst]
  rw [PollWorker.HandleOKCallback_key lookup event s ht, h0, if_pos hc]

theorem PollWorker.HandleOKCallback_key_no_text (lookup : XKeyEvent → Lookup) (event : XEvent)
    (s : Process) (ht : event.type = Xlib.KeyPress)
    (hst : (lookup event.xkey).stored = []) :
    PollWorker.HandleOKCallback lookup event s =
      ({ error := JsValue.null,
         event :=
           if (lookup event.xkey).before 0 ≠ 0 then
             [("type", JsValue.str "key"),
              ("value", JsValue.cstr [(lookup event.xkey).before 0]),
              ("sym", JsValue.num (((lookup event.xkey).key % 2 ^ 32 : Nat) : Int))]
           else
             [("type", JsValue.str "key"),
              ("sym", JsValue.num (((lookup event.xkey).key % 2 ^ 32 : Nat) : Int))] },
       s) := by
  have h0 : (lookup event.xkey).keybuf 0 = (lookup event.xkey).before 0 := by
    simp [Lookup.keybuf, hst]
  rw [PollWorker.HandleOKCallback_key lookup event s ht, h0]

/-- C9, evaluated on a KeyPress whose key code has no symbols. `XLookupString`
stores no byte, so the decoded text is empty, but `keybuf` is not initialised and
the test of line 132 reads what the buffer held before: with the byte 65 left
there the event object carries `value`, the one-character string A, next to
`sym`. With the buffer zeroed beforehand the same decoding gives no `value`, and
a key that decodes to the letter a gives `value` a. -/
theorem PollWorker.keyPress_no_text_emits_stale_value :
    (staleLookup { keycode := 255, state := 0 }).stored = [] ∧
    (PollWorker.HandleOKCallback staleLookup
        { (default : XEvent) with type := 2, xkey := { keycode := 255, state := 0 } }
        exampleBackend).1.event
      = [("type", JsValue.str "key"), ("value", JsValue.cstr [65]), ("sym", JsValue.num 0)] ∧
    (PollWorker.HandleOKCallback staleLookup
        { (default : XEvent) with type := 2, xkey := { keycode := 255, state := 0 } }
        exampleBackend).1.event.get "value" = some (JsValue.cstr [65]) ∧
    (exampleLookup { keycode := 50, state := 0 }).stored = [] ∧
    (PollWorker.HandleOKCallback exampleLookup
        { (default : XEvent) with type := 2, xkey := { keycode := 50, state := 0 } }
        exampleBackend).1.event
      = [("type", JsValue.str "key"), ("sym", JsValue.num 65505)] ∧
    (PollWorker.HandleOKCallback exampleLookup
        { (default : XEvent) with type := 2, xkey := { keycode := 38, state := 0 } }
        exampleBackend).1.event
      = [("type", JsValue.str "key"), ("value", JsValue.cstr [97]), ("sym", JsValue.num 97)] := by
  decide

theorem XorgBackend.createSurface_false (s : Process) :
    XorgBackend.createSurface false s =
      (none, { backend := s.backend,
               world := { s.world with
                 calls := s.world.calls ++
                   [Call.XOpenDisplay none, Call.Nan_ThrowError "Could not open display"] } }) := by
  simp [XorgBackend.createSurface, XOpenDisplay, Nan_ThrowError, World.log]

theorem XorgBackend.construct_false (width height : Int) (w : World) :
    XorgBackend.construct width height false w =
      { backend := { width := width, height := height, surface := none, abortCallback := none },
        world := { w with
          calls := w.calls ++
            [Call.XOpenDisplay none, Call.Nan_ThrowError "Could not open display"] } } := by
  unfold XorgBackend.construct
  rw [XorgBackend.createSurface_false]

/-- C4, evaluated on the open 800 by 600 backend. After one `destroySurface` the
member `surface` still holds pointer 0, whose record has no reference left and
still reads status success; a second `destroySurface` therefore passes the guard
and issues `cairo_surface_destroy` and `XCloseDisplay` again, so two calls do
not leave the process that one call leaves. The same happens when a second
reference keeps the surface alive across the first call. -/
theorem XorgBackend.destroySurface_twice_repeats_teardown :
    (XorgBackend.destroySurface exampleBackend).backend.surface = some 0 ∧
    ((XorgBackend.destroySurface exampleBackend).world.deref (some 0)).map (fun c => c.refs)
      = some 0 ∧
    cairo_surface_status (XorgBackend.destroySurface exampleBackend).world
        (XorgBackend.destroySurface exampleBackend).backend.surface
      = cairo_status_t.CAIRO_STATUS_SUCCESS ∧
    (XorgBackend.destroySurface exampleBackend).world.calls.drop 6 =
      [Call.cairo_surface_destroy (some 0), Call.XCloseDisplay (some 1)] ∧
    (XorgBackend.destroySurface (XorgBackend.destroySurface exampleBackend)).world.calls.drop 6 =
      [Call.cairo_surface_destroy (some 0), Call.XCloseDisplay (some 1),
       Call.cairo_surface_destroy (some 0), Call.XCloseDisplay (some 1)] ∧
    XorgBackend.destroySurface (XorgBackend.destroySurface exampleBackend)
      ≠ XorgBackend.destroySurface exampleBackend ∧
    ((XorgBackend.destroySurface exampleBackendShared).world.deref (some 0)).map (fun c => c.refs)
      = some 1 ∧
    (XorgBackend.destroySurface (XorgBackend.destroySurface exampleBackendShared)).world.calls.drop 7
      = [Call.cairo_surface_destroy (some 0), Call.XCloseDisplay (some 1),
         Call.cairo_surface_destroy (some 0), Call.XCloseDisplay (some 1)] := by
  decide

/-- C6, evaluated on the open 800 by 600 backend whose `recreateSurface` cannot
open the display. The error is reported, null is returned, no window is created
and the abort closure is gone, but the member `surface` still holds pointer 0 of
the surface that `destroySurface` released. -/
theorem XorgBackend.recreate_failure_keeps_stale_surface :
    (XorgBackend.recreateSurface false exampleBackend).1 = none ∧
    (XorgBackend.recreateSurface false exampleBackend).2.world.calls.drop 6 =
      [Call.cairo_surface_destroy (some 0), Call.XCloseDisplay (some 1),
       Call.XOpenDisplay none, Call.Nan_ThrowError "Could not open display"] ∧
    (XorgBackend.recreateSurface false exampleBackend).2.backend.abortCallback = none ∧
    (XorgBackend.recreateSurface false exampleBackend).2.backend.surface = some 0 ∧
    ((XorgBackend.recreateSurface false exampleBackend).2.world.deref (some 0)).map
      (fun c => c.refs) = some 0 := by
  decide
